import Mathlib

/-!
Verification development for the Crossing backend (two express/pg variants:
src/server.js and src/unnamed/part_000). The request handlers are embedded
shallowly: the pg tables become Lean lists of records, the in-memory token
map becomes an association list with first-match lookup, wall-clock time is
an explicit integer parameter in milliseconds, and each handler becomes a
pure function from state and request to response and new state.
-/

namespace Crossing

/-- JavaScript String.prototype.trim: the string with whitespace stripped
from both ends. Defined over the character list so that concrete instances
reduce inside the kernel. -/
def jsTrim (s : String) : String :=
  String.mk (((s.data.dropWhile Char.isWhitespace).reverse.dropWhile
    Char.isWhitespace).reverse)

/-- Case folding as used by SQL LOWER on the names stored here:
character-wise lower casing over the character list. -/
def jsToLower (s : String) : String :=
  String.mk (s.data.map Char.toLower)

/-! ## Token session registry (createToken / validateToken) -/

/-- One value of the process-wide tokens map: tokens.set(token,
persisting clientId, name and expires (issuance time plus seven days in
milliseconds). -/
structure TokenEntry where
  clientId : Nat
  name : String
  expires : Int
  deriving DecidableEq

/-- The tokens Map, embedded as an association list in which lookup takes
the first binding for a key. -/
abbrev TokenMap := List (String × TokenEntry)

/-- The validity window written in createToken: 7 * 24 * 60 * 60 * 1000
milliseconds, that is seven days. -/
def tokenWindowMs : Int := 7 * 24 * 60 * 60 * 1000

/-- Map.get: the first binding for the key, if any. -/
def lookupToken (m : TokenMap) (tok : String) : Option TokenEntry :=
  (m.find? (fun p => p.1 == tok)).map Prod.snd

/-- Map.delete: every binding for the key is dropped. -/
def deleteToken (m : TokenMap) (tok : String) : TokenMap :=
  m.filter (fun p => p.1 != tok)

/-- createToken(clientId, name) at time now with the freshly generated
random hex string tok: stores clientId, name and expires = now plus the
seven-day window, in Map.set fashion (any previous binding for tok is
superseded). -/
def createToken (m : TokenMap) (tok : String) (clientId : Nat) (name : String)
    (now : Int) : TokenMap :=
  (tok, ⟨clientId, name, now + tokenWindowMs⟩) :: deleteToken m tok

/-- validateToken(token) at time now. A falsy token (the empty string models
a missing header) gives null at once. Otherwise the map is consulted: on a
missing entry, or one whose expires lies strictly in the past, the entry is
deleted and null returned; otherwise the entry is returned and the map is
left untouched. Returns the result together with the map after the call. -/
def validateToken (m : TokenMap) (tok : String) (now : Int) :
    Option TokenEntry × TokenMap :=
  if tok = "" then (none, m)
  else
    match lookupToken m tok with
    | none => (none, deleteToken m tok)
    | some t => if now > t.expires then (none, deleteToken m tok) else (some t, m)

/-! ## Practitioner authentication middleware (practAuth), both variants -/

/-- Outcome of a middleware gate: pass the request on, or short-circuit
with HTTP 401. -/
inductive GateResult where
  | proceed
  | unauthorized401
  deriving DecidableEq

/-- practAuth of src/unnamed/part_000: provided is the
x-practitioner-pin header with a missing header read as the empty string,
both sides are trimmed, and inequality short-circuits with 401. -/
def practAuth (header : Option String) (pin : String) : GateResult :=
  if jsTrim (header.getD "") = jsTrim pin then .proceed else .unauthorized401

/-- practAuth of src/server.js: the raw header is compared with the
configured pin by strict equality, with no trimming; a missing header never
equals the pin. -/
def practAuthServer (header : Option String) (pin : String) : GateResult :=
  match header with
  | none => .unauthorized401
  | some h => if h = pin then .proceed else .unauthorized401

/-! ## Database state: clients, sessions, ecosystem -/

/-- A row of the clients table (the columns the handlers touch). SERIAL ids
are modelled by a next-id counter in the state. -/
structure Client where
  id : Nat
  name : String
  pin_hash : String
  last_seen : Int
  deriving DecidableEq

/-- A row of the sessions table. started_at defaults to NOW() at insertion,
ended_at to NULL, duration_seconds and word_count to 0. -/
structure Session where
  id : Nat
  client_id : Nat
  started_at : Int
  ended_at : Option Int
  duration_seconds : Int
  word_count : Int
  session_number : Nat
  deriving DecidableEq

/-- A row of the ecosystem table. -/
structure EcoEntry where
  client_id : Nat
  person_name : String
  person_type : String
  needs_provided : List String
  deriving DecidableEq

/-- One element of the people array sent to POST /data/ecosystem: p.name,
p.type, and p.needs which may be absent (the handler writes p.needs || []). -/
structure Person where
  name : String
  type : String
  needs : Option (List String)
  deriving DecidableEq

/-- The slice of server state the verified handlers read and write: the three
tables as insertion-ordered row lists, the two SERIAL counters, and the
in-memory token map. -/
structure St where
  clients : List Client
  sessions : List Session
  ecosystem : List EcoEntry
  nextClientId : Nat
  nextSessionId : Nat
  tokens : TokenMap
  deriving DecidableEq

/-! ## POST /auth/login-or-register (src/unnamed/part_000) -/

/-- The SQL lookup SELECT id, name FROM clients WHERE LOWER(name)=LOWER($1):
first row whose name matches case-insensitively. -/
def findClientByNameCI (clients : List Client) (nm : String) : Option Client :=
  clients.find? (fun c => jsToLower c.name == jsToLower nm)

/-- UPDATE clients SET last_seen=NOW() WHERE id=$1. -/
def updateLastSeen (clients : List Client) (cid : Nat) (now : Int) : List Client :=
  clients.map (fun c => if c.id == cid then { c with last_seen := now } else c)

/-- Response of login-or-register: a 400 validation error, or 200 with the
client id, stored name and the isNew flag (the issued token lives in the
state's token map). -/
inductive LoginResult where
  | badRequest (msg : String)
  | ok (clientId : Nat) (name : String) (isNew : Bool)
  deriving DecidableEq

/-- POST /auth/login-or-register. body_name is req.body.name (None when the
field is absent); freshTok stands for the random hex string createToken
draws; now is the wall clock. Rejects a falsy or whitespace-only name with
400; otherwise looks the trimmed name up case-insensitively, and either
touches last_seen on the hit or inserts a new row with pin_hash so-called
no-pin, issuing a token in both branches. -/
def loginOrRegister (s : St) (body_name : Option String) (freshTok : String)
    (now : Int) : LoginResult × St :=
  let nm := body_name.getD ""
  if jsTrim nm = "" then (.badRequest "Please enter your name.", s)
  else
    let cleanName := jsTrim nm
    match findClientByNameCI s.clients cleanName with
    | some c =>
        (.ok c.id c.name false,
         { s with clients := updateLastSeen s.clients c.id now,
                  tokens := createToken s.tokens freshTok c.id c.name now })
    | none =>
        let c : Client := ⟨s.nextClientId, cleanName, "no-pin", now⟩
        (.ok c.id c.name true,
         { s with clients := s.clients ++ [c],
                  nextClientId := s.nextClientId + 1,
                  tokens := createToken s.tokens freshTok c.id c.name now })

/-! ## POST /sessions/start and /sessions/:id/end -/

/-- SELECT COUNT(*) FROM sessions WHERE client_id=$1. -/
def countSessions (sess : List Session) (cid : Nat) : Nat :=
  (sess.filter (fun x => x.client_id == cid)).length

/-- POST /sessions/start for the authenticated client cid: the session
number is the current count plus one, and a fresh row is inserted with that
number, started_at = now and the defaulted end fields. Returns
(sessionId, sessionNumber) and the new state. -/
def sessionStart (s : St) (cid : Nat) (now : Int) : (Nat × Nat) × St :=
  let num := countSessions s.sessions cid + 1
  let sid := s.nextSessionId
  ((sid, num),
   { s with sessions := s.sessions ++ [⟨sid, cid, now, none, 0, 0, num⟩],
            nextSessionId := sid + 1 })

/-- n sequential calls of sessionStart for one client, with no interleaving;
returns the session numbers in call order and the final state. -/
def sessionStartN (s : St) (cid : Nat) (now : Int) : Nat → List Nat × St
  | 0 => ([], s)
  | n + 1 =>
      let r := sessionStart s cid now
      let rest := sessionStartN r.2 cid now n
      (r.1.2 :: rest.1, rest.2)

/-- The row update of UPDATE sessions SET ended_at=NOW(),
duration_seconds=$1, word_count=$2 WHERE id=$3 AND client_id=$4, applied to
one row: it fires only when both the session id and the owning client id
match. duration || 0 and wordCount || 0 are the getD 0 defaults. -/
def endUpdate (sid cid : Nat) (dur wc : Option Int) (now : Int)
    (x : Session) : Session :=
  if x.id == sid && x.client_id == cid then
    { x with ended_at := some now, duration_seconds := dur.getD 0,
             word_count := wc.getD 0 }
  else x

/-- POST /sessions/:id/end: applies endUpdate to every row (the SQL UPDATE
touches exactly the matching ones) and answers ok:true regardless of how
many rows matched. -/
def sessionEnd (s : St) (cid sid : Nat) (dur wc : Option Int) (now : Int) :
    Bool × St :=
  (true, { s with sessions := s.sessions.map (endUpdate sid cid dur wc now) })

/-! ## POST /data/ecosystem -/

/-- The row INSERT INTO ecosystem built from one person of the request. -/
def ecoEntryOf (cid : Nat) (p : Person) : EcoEntry :=
  ⟨cid, p.name, p.type, p.needs.getD []⟩

/-- The rows of one client, for stating what an ecosystem save leaves. -/
def ecoEntries (s : St) (cid : Nat) : List EcoEntry :=
  s.ecosystem.filter (fun e => e.client_id == cid)

/-- POST /data/ecosystem for the authenticated client cid: DELETE FROM
ecosystem WHERE client_id=$1, then one insert per element of
people || [] (people is None when the body omits the field), then ok:true. -/
def ecosystemSave (s : St) (cid : Nat) (people : Option (List Person)) :
    Bool × St :=
  (true,
   { s with ecosystem :=
       s.ecosystem.filter (fun e => e.client_id != cid)
         ++ (people.getD []).map (ecoEntryOf cid) })

/-! ## GET /data/load: the sessionsThisWeek count -/

/-- Milliseconds per local day; timestamps are local-time milliseconds and
day k spans [k * msPerDay, (k+1) * msPerDay). Day numbers are counted from a
reference Sunday, so JavaScript getDay() of day d is d mod 7. -/
def msPerDay : Int := 86400000

/-- getDay() of local day number d: 0 = Sunday through 6 = Saturday. -/
def dayOfWeek (d : Nat) : Nat := d % 7

/-- The week-start day computed by the handler:
weekStart.setDate(weekStart.getDate() - weekStart.getDay() + 1), that is
current day minus getDay() plus one. -/
def jsWeekStartDay (d : Nat) : Int := (d : Int) - (dayOfWeek d : Int) + 1

/-- The full weekStart timestamp: the day from jsWeekStartDay at midnight
local time (setHours(0,0,0,0)). now is a local-time millisecond count and
now / msPerDay its day number. -/
def jsWeekStartMs (now : Nat) : Int := jsWeekStartDay (now / 86400000) * msPerDay

/-- sessionsThisWeek as the handler computes it: the count of the client's
session start timestamps at or after the computed weekStart. -/
def sessionsThisWeek (starts : List Nat) (now : Nat) : Nat :=
  (starts.filter (fun t => jsWeekStartMs now ≤ (t : Int))).length

/-- Modelled from the spec: the most recent Monday relative to day d — the
largest day that is at most d and falls on a Monday. On a Sunday (d mod 7 =
0) that is six days back; otherwise it is d rolled back to its week's
Monday. -/
def mostRecentMondayDay (d : Nat) : Int :=
  if d % 7 = 0 then (d : Int) - 6 else (d : Int) - (d % 7 : Nat) + 1

/-- Modelled from the spec: the count of sessions started at or after the
most recent Monday at midnight. -/
def specSessionsThisWeek (starts : List Nat) (now : Nat) : Nat :=
  (starts.filter
    (fun t => mostRecentMondayDay (now / 86400000) * msPerDay ≤ (t : Int))).length

/-! ## POST /api/messages (the upstream proxy) -/

/-- What one outbound fetch to the fixed upstream endpoint can produce: a
response with a status and a JSON body, or a network-level failure that
rejects the promise with a message. -/
inductive Upstream where
  | ok (status : Nat) (data : String)
  | netError (msg : String)
  deriving DecidableEq

/-- The JSON body the handler answers with: the configuration error sent
when no key is set, relayed upstream data, or the caught proxy error. -/
inductive RespBody where
  | configErrorMsg
  | upstreamData (d : String)
  | proxyErrorMsg (m : String)
  deriving DecidableEq

/-- An HTTP response: status code and body. -/
structure HttpOut where
  status : Nat
  body : RespBody
  deriving DecidableEq

/-- POST /api/messages. apiKey is the configured upstream credential (None
for unset or empty, both falsy); upstream is the oracle for the single
outbound fetch of the stringified request body. Returns the response
together with how many outbound calls were attempted. With no key the
handler answers 500 at once with zero calls; otherwise it relays the
upstream status and body, and a rejection is caught into a 500 proxy
error. -/
def apiMessages (apiKey : Option String) (reqBody : String)
    (upstream : String → Upstream) : HttpOut × Nat :=
  match apiKey with
  | none => (⟨500, .configErrorMsg⟩, 0)
  | some _ =>
      match upstream reqBody with
      | .ok st d => (⟨st, .upstreamData d⟩, 1)
      | .netError m => (⟨500, .proxyErrorMsg m⟩, 1)

/-! ## Helper lemmas -/

/-- A fresh createToken binding is what lookupToken finds first. -/
theorem lookupToken_createToken (m : TokenMap) (tok : String) (cid : Nat)
    (name : String) (now : Int) :
    lookupToken (createToken m tok cid name now) tok
      = some ⟨cid, name, now + tokenWindowMs⟩ := by
  simp [lookupToken, createToken]

/-- After deleteToken, lookupToken no longer finds the key. -/
theorem lookupToken_deleteToken (m : TokenMap) (tok : String) :
    lookupToken (deleteToken m tok) tok = none := by
  induction m with
  | nil => rfl
  | cons p rest ih =>
      by_cases h : p.1 = tok
      · simp [deleteToken, lookupToken, List.filter_cons, h]
      · simp [deleteToken, lookupToken, List.filter_cons, h]

/-- Away from Sundays, the handler's week start day is the most recent
Monday. -/
theorem jsWeekStartDay_eq_monday (d : Nat) (h : d % 7 ≠ 0) :
    jsWeekStartDay d = mostRecentMondayDay d := by
  simp [jsWeekStartDay, mostRecentMondayDay, dayOfWeek, h]

/-- On a Sunday the handler's week start day is the next day. -/
theorem jsWeekStartDay_sunday (d : Nat) (h : d % 7 = 0) :
    jsWeekStartDay d = (d : Int) + 1 := by
  simp [jsWeekStartDay, dayOfWeek, h]

/-! ## Claim theorems -/

/-- Claim C1, counterexample: in the src/server.js variant of practAuth the
header value " 1234 " and the configured pin "1234" are equal after
trimming, yet the gate answers 401 — the claim that the gate accepts
exactly the post-trim matches fails on that variant. -/
theorem C1_counterexample :
    jsTrim " 1234 " = jsTrim "1234"
    ∧ practAuthServer (some " 1234 ") "1234" = GateResult.unauthorized401 := by
  constructor
  · decide
  · decide

/-- Claim C1, amended: the practAuth gate of src/unnamed/part_000 accepts a
request exactly when the provided header equals the configured pin after
trimming surrounding whitespace from both (a missing header reads as the
empty string), and otherwise short-circuits with 401; in particular " 1234 "
matches a configured "1234" and "1235" does not. The practAuth gate of
src/server.js instead compares the raw header with the pin by strict
equality, with no trimming. -/
theorem C1_pract_auth :
    (∀ (header : Option String) (pin : String),
        practAuth header pin = GateResult.proceed
          ↔ jsTrim (header.getD "") = jsTrim pin)
    ∧ (∀ (header : Option String) (pin : String),
        practAuth header pin = GateResult.proceed
        ∨ practAuth header pin = GateResult.unauthorized401)
    ∧ practAuth (some " 1234 ") "1234" = GateResult.proceed
    ∧ practAuth (some "1235") "1234" = GateResult.unauthorized401
    ∧ (∀ (header : Option String) (pin : String),
        practAuthServer header pin = GateResult.proceed ↔ header = some pin) := by
  refine ⟨?_, ?_, by decide, by decide, ?_⟩
  · intro header pin
    unfold practAuth
    by_cases h : jsTrim (header.getD "") = jsTrim pin <;> simp [h]
  · intro header pin
    unfold practAuth
    by_cases h : jsTrim (header.getD "") = jsTrim pin <;> simp [h]
  · intro header pin
    cases header with
    | none => simp [practAuthServer]
    | some h => by_cases hp : h = pin <;> simp [practAuthServer, hp]

/-- Claim C1, witness: the amended theorem applied at the header " 42 "
against the configured pin "42". -/
theorem C1_pract_auth_witness :
    practAuth (some " 42 ") "42" = GateResult.proceed :=
  (C1_pract_auth.1 (some " 42 ") "42").mpr (by decide)

/-- Claim C3: a token issued at t0 carries expiry t0 plus the seven-day
window; validateToken accepts it (returning the associated identity) at
every now at or before that expiry, rejects it at every later now and then
purges the entry from the registry, and any token with no registry entry is
always rejected. -/
theorem C3_token_validity :
    (∀ (m : TokenMap) (tok : String) (cid : Nat) (name : String) (t0 now : Int),
        tok ≠ "" → now ≤ t0 + tokenWindowMs →
        (validateToken (createToken m tok cid name t0) tok now).1
          = some ⟨cid, name, t0 + tokenWindowMs⟩)
    ∧ (∀ (m : TokenMap) (tok : String) (cid : Nat) (name : String) (t0 now : Int),
        tok ≠ "" → t0 + tokenWindowMs < now →
        (validateToken (createToken m tok cid name t0) tok now).1 = none
        ∧ lookupToken (validateToken (createToken m tok cid name t0) tok now).2 tok
            = none)
    ∧ (∀ (m : TokenMap) (tok : String) (now : Int),
        lookupToken m tok = none → (validateToken m tok now).1 = none) := by
  refine ⟨?_, ?_, ?_⟩
  · intro m tok cid name t0 now hne hle
    simp [validateToken, lookupToken_createToken, hne, not_lt.mpr hle]
  · intro m tok cid name t0 now hne hlt
    simp [validateToken, lookupToken_createToken, hne, hlt,
      lookupToken_deleteToken]
  · intro m tok now h
    unfold validateToken
    by_cases h0 : tok = ""
    · simp [h0]
    · simp [h0, h]

/-- Claim C3, witness: the three conjuncts at concrete inputs — a token
accepted right at issuance, the same token rejected and purged past the
window, and a never-issued lookup rejected. -/
theorem C3_token_validity_witness :
    (validateToken (createToken [] "t" 1 "Ana" 0) "t" 0).1
      = some ⟨1, "Ana", 0 + tokenWindowMs⟩
    ∧ (validateToken (createToken [] "t" 1 "Ana" 0) "t" 700000000).1 = none
    ∧ (validateToken [] "zz" 5).1 = none :=
  ⟨C3_token_validity.1 [] "t" 1 "Ana" 0 0 (by decide) (by decide),
   (C3_token_validity.2.1 [] "t" 1 "Ana" 0 700000000 (by decide) (by decide)).1,
   C3_token_validity.2.2 [] "zz" 5 rfl⟩

/-- Claim C4: a validateToken call that succeeds returns the registry
exactly as it was — the entry, its expiry included, is unchanged, so there
is no sliding expiration. -/
theorem C4_no_sliding_expiry :
    ∀ (m : TokenMap) (tok : String) (now : Int) (e : TokenEntry),
      (validateToken m tok now).1 = some e →
      (validateToken m tok now).2 = m ∧ lookupToken m tok = some e := by
  intro m tok now e h
  by_cases h0 : tok = ""
  · simp [validateToken, h0] at h
  · cases hl : lookupToken m tok with
    | none => simp [validateToken, h0, hl] at h
    | some t =>
        by_cases hx : now > t.expires
        · simp [validateToken, h0, hl, hx] at h
        · simp only [validateToken, h0, hl, hx] at h ⊢
          simp at h
          simp [hl, h]

/-- Claim C4, witness: the theorem applied to a one-entry registry with an
unexpired token. -/
theorem C4_no_sliding_expiry_witness :
    (validateToken [("t1", ⟨1, "Ana", 100⟩)] "t1" 50).2 = [("t1", ⟨1, "Ana", 100⟩)]
    ∧ lookupToken [("t1", ⟨1, "Ana", 100⟩)] "t1" = some ⟨1, "Ana", 100⟩ :=
  C4_no_sliding_expiry [("t1", ⟨1, "Ana", 100⟩)] "t1" 50 ⟨1, "Ana", 100⟩ (by decide)

/-- Claim C2: the sessionsThisWeek computation is wrong on Sundays. Day
numbers count local days from a reference Sunday, so day 7 is a Sunday; with
one session started on day 6 (the Saturday before) and the clock at midnight
of day 7, the handler computes weekStart as the upcoming Monday (day 8) and
returns 0, while the count since the most recent Monday (day 1) is 1. The
last three conjuncts certify the comparison: mostRecentMondayDay really is
the latest Monday at or before the given day, the handler agrees with it on
every non-Sunday, and on Sundays the handler takes the next day instead. -/
theorem C2_weekstart_sunday_bug :
    dayOfWeek 7 = 0
    ∧ sessionsThisWeek [6 * 86400000] (7 * 86400000) = 0
    ∧ specSessionsThisWeek [6 * 86400000] (7 * 86400000) = 1
    ∧ (∀ d : Nat, mostRecentMondayDay d ≤ (d : Int)
        ∧ mostRecentMondayDay d % 7 = 1
        ∧ (d : Int) < mostRecentMondayDay d + 7)
    ∧ (∀ (starts : List Nat) (now : Nat), (now / 86400000) % 7 ≠ 0 →
        sessionsThisWeek starts now = specSessionsThisWeek starts now)
    ∧ (∀ d : Nat, d % 7 = 0 → jsWeekStartDay d = (d : Int) + 1) := by
  refine ⟨rfl, by decide, by decide, ?_, ?_, ?_⟩
  · intro d
    unfold mostRecentMondayDay
    split <;> omega
  · intro starts now h
    unfold sessionsThisWeek specSessionsThisWeek jsWeekStartMs
    rw [jsWeekStartDay_eq_monday _ h]
  · exact jsWeekStartDay_sunday

/-- Claim C2, witness: the handler and the most-recent-Monday count agree on
day 5 (a Friday), and day 14 (a Sunday) is sent to day 15. -/
theorem C2_weekstart_sunday_bug_witness :
    sessionsThisWeek [86400000] (5 * 86400000)
      = specSessionsThisWeek [86400000] (5 * 86400000)
    ∧ jsWeekStartDay 14 = (14 : Int) + 1 :=
  ⟨C2_weekstart_sunday_bug.2.2.2.2.1 [86400000] (5 * 86400000) (by decide),
   C2_weekstart_sunday_bug.2.2.2.2.2 14 (by decide)⟩

/-- The case-insensitive client lookup only depends on the lower-cased
search string. -/
theorem findCI_congr (cl : List Client) (nm1 nm2 : String)
    (h : jsToLower nm1 = jsToLower nm2) :
    findClientByNameCI cl nm1 = findClientByNameCI cl nm2 := by
  unfold findClientByNameCI
  simp only [h]

/-- Touching last_seen neither hides nor reveals a client for the
case-insensitive lookup; it only updates the found row. -/
theorem findCI_updateLastSeen (cl : List Client) (cid : Nat) (t : Int)
    (nm : String) :
    findClientByNameCI (updateLastSeen cl cid t) nm
      = (findClientByNameCI cl nm).map
          (fun c => if c.id == cid then { c with last_seen := t } else c) := by
  unfold findClientByNameCI updateLastSeen
  rw [List.find?_map]
  have hp : ((fun c : Client => jsToLower c.name == jsToLower nm) ∘ fun c =>
      if c.id == cid then { c with last_seen := t } else c)
      = (fun c : Client => jsToLower c.name == jsToLower nm) := by
    funext c
    by_cases h : c.id = cid <;> simp [Function.comp, h]
  rw [hp]

/-- Claim C5: login-or-register rejects a missing or whitespace-only name
with a validation error and no state change; on a case-insensitive hit it
answers with the existing client id and isNew=false, only touches that
client's last_seen (creating nobody), and issues a token for that identity;
on a miss it appends exactly one new client row carrying the trimmed name
and the placeholder credential, answers isNew=true, and issues a token; and
a repeat call whose name trims to any case variant of the first name comes
back with the same client id and isNew=false. -/
theorem C5_login_or_register :
    (∀ (s : St) (bn : Option String) (tok : String) (now : Int),
        jsTrim (bn.getD "") = "" →
        loginOrRegister s bn tok now
          = (.badRequest "Please enter your name.", s))
    ∧ (∀ (s : St) (nm tok : String) (now : Int) (c : Client),
        jsTrim nm ≠ "" →
        findClientByNameCI s.clients (jsTrim nm) = some c →
        (loginOrRegister s (some nm) tok now).1 = .ok c.id c.name false
        ∧ (loginOrRegister s (some nm) tok now).2.clients
            = updateLastSeen s.clients c.id now
        ∧ (loginOrRegister s (some nm) tok now).2.clients.length
            = s.clients.length
        ∧ lookupToken (loginOrRegister s (some nm) tok now).2.tokens tok
            = some ⟨c.id, c.name, now + tokenWindowMs⟩)
    ∧ (∀ (s : St) (nm tok : String) (now : Int),
        jsTrim nm ≠ "" →
        findClientByNameCI s.clients (jsTrim nm) = none →
        (loginOrRegister s (some nm) tok now).1
            = .ok s.nextClientId (jsTrim nm) true
        ∧ (loginOrRegister s (some nm) tok now).2.clients
            = s.clients ++ [⟨s.nextClientId, jsTrim nm, "no-pin", now⟩]
        ∧ lookupToken (loginOrRegister s (some nm) tok now).2.tokens tok
            = some ⟨s.nextClientId, jsTrim nm, now + tokenWindowMs⟩)
    ∧ (∀ (s : St) (nm1 nm2 tok1 tok2 : String) (now1 now2 : Int)
          (cid : Nat) (n1 : String) (b : Bool) (s1 : St),
        jsTrim nm1 ≠ "" → jsTrim nm2 ≠ "" →
        jsToLower (jsTrim nm2) = jsToLower (jsTrim nm1) →
        loginOrRegister s (some nm1) tok1 now1 = (.ok cid n1 b, s1) →
        ∃ n2, (loginOrRegister s1 (some nm2) tok2 now2).1
            = .ok cid n2 false) := by
  refine ⟨?_, ?_, ?_, ?_⟩
  · intro s bn tok now h
    simp [loginOrRegister, h]
  · intro s nm tok now c hne hfind
    have e : loginOrRegister s (some nm) tok now
        = (.ok c.id c.name false,
           { s with clients := updateLastSeen s.clients c.id now,
                    tokens := createToken s.tokens tok c.id c.name now }) := by
      simp [loginOrRegister, hne, hfind]
    rw [e]
    exact ⟨rfl, rfl, by simp [updateLastSeen],
      lookupToken_createToken s.tokens tok c.id c.name now⟩
  · intro s nm tok now hne hfind
    have e : loginOrRegister s (some nm) tok now
        = (.ok s.nextClientId (jsTrim nm) true,
           { s with
               clients := s.clients
                 ++ [⟨s.nextClientId, jsTrim nm, "no-pin", now⟩],
               nextClientId := s.nextClientId + 1,
               tokens := createToken s.tokens tok s.nextClientId
                 (jsTrim nm) now }) := by
      simp [loginOrRegister, hne, hfind]
    rw [e]
    exact ⟨rfl, rfl,
      lookupToken_createToken s.tokens tok s.nextClientId (jsTrim nm) now⟩
  · intro s nm1 nm2 tok1 tok2 now1 now2 cid n1 b s1 h1 h2 hlow hcall
    cases hfind : findClientByNameCI s.clients (jsTrim nm1) with
    | some c =>
        have e1 : loginOrRegister s (some nm1) tok1 now1
            = (.ok c.id c.name false,
               { s with clients := updateLastSeen s.clients c.id now1,
                        tokens := createToken s.tokens tok1 c.id c.name now1 }) := by
          simp [loginOrRegister, h1, hfind]
        rw [e1] at hcall
        have hcid : c.id = cid := by
          have h := congrArg Prod.fst hcall
          simp at h
          exact h.1
        have hs1 : s1 = { s with clients := updateLastSeen s.clients c.id now1,
                                 tokens := createToken s.tokens tok1 c.id c.name now1 } := by
          have h := congrArg Prod.snd hcall
          simpa using h.symm
        subst hs1
        have hfind2 : findClientByNameCI
              (updateLastSeen s.clients c.id now1) (jsTrim nm2)
            = some { c with last_seen := now1 } := by
          rw [findCI_congr _ _ _ hlow, findCI_updateLastSeen, hfind]
          simp
        refine ⟨c.name, ?_⟩
        have e2 : (loginOrRegister
              { s with clients := updateLastSeen s.clients c.id now1,
                       tokens := createToken s.tokens tok1 c.id c.name now1 }
              (some nm2) tok2 now2).1
            = .ok c.id c.name false := by
          simp [loginOrRegister, h2, hfind2]
        rw [← hcid]
        exact e2
    | none =>
        have e1 : loginOrRegister s (some nm1) tok1 now1
            = (.ok s.nextClientId (jsTrim nm1) true,
               { s with
                   clients := s.clients
                     ++ [⟨s.nextClientId, jsTrim nm1, "no-pin", now1⟩],
                   nextClientId := s.nextClientId + 1,
                   tokens := createToken s.tokens tok1 s.nextClientId
                     (jsTrim nm1) now1 }) := by
          simp [loginOrRegister, h1, hfind]
        rw [e1] at hcall
        have hcid : s.nextClientId = cid := by
          have h := congrArg Prod.fst hcall
          simp at h
          exact h.1
        have hs1 : s1 = { s with
            clients := s.clients ++ [⟨s.nextClientId, jsTrim nm1, "no-pin", now1⟩],
            nextClientId := s.nextClientId + 1,
            tokens := createToken s.tokens tok1 s.nextClientId (jsTrim nm1) now1 } := by
          have h := congrArg Prod.snd hcall
          simpa using h.symm
        subst hs1
        have hfind0 : findClientByNameCI s.clients (jsTrim nm2) = none := by
          rw [findCI_congr _ _ _ hlow]
          exact hfind
        have hfind2 : findClientByNameCI
              (s.clients ++ [⟨s.nextClientId, jsTrim nm1, "no-pin", now1⟩])
              (jsTrim nm2)
            = some ⟨s.nextClientId, jsTrim nm1, "no-pin", now1⟩ := by
          unfold findClientByNameCI at hfind0 ⊢
          rw [List.find?_append, hfind0]
          simp [hlow]
        refine ⟨jsTrim nm1, ?_⟩
        have e2 : (loginOrRegister
              { s with
                  clients := s.clients
                    ++ [⟨s.nextClientId, jsTrim nm1, "no-pin", now1⟩],
                  nextClientId := s.nextClientId + 1,
                  tokens := createToken s.tokens tok1 s.nextClientId
                    (jsTrim nm1) now1 }
              (some nm2) tok2 now2).1
            = .ok s.nextClientId (jsTrim nm1) false := by
          simp [loginOrRegister, h2, hfind2]
        rw [← hcid]
        exact e2

/-- Claim C5, witness: the four conjuncts at concrete inputs — a blank name
rejected without state change, a case-variant hit on a one-client store, a
miss appending the one new row, and a fresh registration followed by a
case-variant repeat that returns the same id with isNew=false. -/
theorem C5_login_or_register_witness :
    loginOrRegister ⟨[], [], [], 1, 1, []⟩ (some "   ") "t0" 0
      = (.badRequest "Please enter your name.", ⟨[], [], [], 1, 1, []⟩)
    ∧ (loginOrRegister ⟨[⟨1, "Ana", "no-pin", 0⟩], [], [], 2, 1, []⟩
        (some " ANA ") "t1" 5).1 = .ok 1 "Ana" false
    ∧ (loginOrRegister ⟨[], [], [], 1, 1, []⟩ (some "Bob") "t2" 0).1
        = .ok 1 "Bob" true
    ∧ ∃ n2, (loginOrRegister
        ⟨[⟨1, "Ana", "no-pin", 0⟩], [], [],
         2, 1, [("t3", ⟨1, "Ana", 0 + tokenWindowMs⟩)]⟩
        (some " ana ") "t4" 5).1 = .ok 1 n2 false :=
  ⟨C5_login_or_register.1 ⟨[], [], [], 1, 1, []⟩ (some "   ") "t0" 0 (by decide),
   (C5_login_or_register.2.1 ⟨[⟨1, "Ana", "no-pin", 0⟩], [], [], 2, 1, []⟩
      " ANA " "t1" 5 ⟨1, "Ana", "no-pin", 0⟩ (by decide) (by decide)).1,
   (C5_login_or_register.2.2.1 ⟨[], [], [], 1, 1, []⟩ "Bob" "t2" 0
      (by decide) (by decide)).1,
   C5_login_or_register.2.2.2 ⟨[], [], [], 1, 1, []⟩ "Ana" " ana " "t3" "t4"
      0 5 1 "Ana" true
      ⟨[⟨1, "Ana", "no-pin", 0⟩], [], [],
       2, 1, [("t3", ⟨1, "Ana", 0 + tokenWindowMs⟩)]⟩
      (by decide) (by decide) (by decide) (by decide)⟩

/-- One sessionStart raises the client's session count by exactly one. -/
theorem countSessions_sessionStart (s : St) (cid : Nat) (now : Int) :
    countSessions (sessionStart s cid now).2.sessions cid
      = countSessions s.sessions cid + 1 := by
  simp [sessionStart, countSessions, List.filter_append]

/-- Claim C6: n sequential sessionStart calls for one client return the
session numbers k+1, ..., k+n in call order, where k is the client's session
count when the run begins — each number is one more than the count at its
own call; in particular a client starting from zero sessions receives
1, ..., n. -/
theorem C6_session_numbering :
    (∀ (s : St) (cid : Nat) (now : Int) (n : Nat),
        (sessionStartN s cid now n).1
          = List.range' (countSessions s.sessions cid + 1) n)
    ∧ (∀ (s : St) (cid : Nat) (now : Int) (n : Nat),
        countSessions s.sessions cid = 0 →
        (sessionStartN s cid now n).1 = List.range' 1 n) := by
  have main : ∀ (n : Nat) (s : St) (cid : Nat) (now : Int),
      (sessionStartN s cid now n).1
        = List.range' (countSessions s.sessions cid + 1) n := by
    intro n
    induction n with
    | zero => intro s cid now; simp [sessionStartN]
    | succ k ih =>
        intro s cid now
        rw [List.range'_succ]
        show (countSessions s.sessions cid + 1)
              :: (sessionStartN (sessionStart s cid now).2 cid now k).1
            = (countSessions s.sessions cid + 1)
              :: List.range' (countSessions s.sessions cid + 1 + 1) k
        rw [ih, countSessions_sessionStart]
  exact ⟨fun s cid now n => main n s cid now,
    fun s cid now n h => by rw [main n s cid now, h]⟩

/-- Claim C6, witness: three starts on a fresh store yield the numbers
one, two, three. -/
theorem C6_session_numbering_witness :
    (sessionStartN ⟨[], [], [], 1, 1, []⟩ 1 0 3).1 = List.range' 1 3 :=
  C6_session_numbering.2 ⟨[], [], [], 1, 1, []⟩ 1 0 3 rfl

/-- Rows built from the request all carry the client id, so the own-client
filter keeps them all. -/
theorem eco_filter_own_map (cid : Nat) (ps : List Person) :
    (ps.map (ecoEntryOf cid)).filter (fun e => e.client_id == cid)
      = ps.map (ecoEntryOf cid) := by
  induction ps with
  | nil => rfl
  | cons p t ih => simp [ecoEntryOf, List.filter_cons, ih]

/-- Rows built from the request all carry the client id, so the
other-clients filter drops them all. -/
theorem eco_filter_other_map (cid : Nat) (ps : List Person) :
    (ps.map (ecoEntryOf cid)).filter (fun e => e.client_id != cid) = [] := by
  induction ps with
  | nil => rfl
  | cons p t ih => simp [ecoEntryOf, List.filter_cons, ih]

/-- The rows kept by the delete step hold nothing of the deleted client. -/
theorem eco_filter_kept_own (cid : Nat) (l : List EcoEntry) :
    (l.filter (fun e => e.client_id != cid)).filter
        (fun e => e.client_id == cid) = [] := by
  induction l with
  | nil => rfl
  | cons e t ih =>
      by_cases h : e.client_id = cid <;> simp [List.filter_cons, h, ih]

/-- The delete step is idempotent. -/
theorem eco_filter_kept_idem (cid : Nat) (l : List EcoEntry) :
    (l.filter (fun e => e.client_id != cid)).filter
        (fun e => e.client_id != cid)
      = l.filter (fun e => e.client_id != cid) := by
  induction l with
  | nil => rfl
  | cons e t ih =>
      by_cases h : e.client_id = cid <;> simp [List.filter_cons, h, ih]

/-- Claim C7: one ecosystem save already leaves the client's rows equal to
the sent list (one row per person, in order) with ok:true, and a second save
of the same list is a no-op on the whole state — no duplication. -/
theorem C7_ecosystem_idempotent :
    ∀ (s : St) (cid : Nat) (ps : List Person),
      (ecosystemSave (ecosystemSave s cid (some ps)).2 cid (some ps)).2
          = (ecosystemSave s cid (some ps)).2
      ∧ ecoEntries (ecosystemSave s cid (some ps)).2 cid
          = ps.map (ecoEntryOf cid)
      ∧ (ecosystemSave s cid (some ps)).1 = true := by
  intro s cid ps
  refine ⟨?_, ?_, rfl⟩
  · show ({ s with ecosystem :=
        ((s.ecosystem.filter (fun e => e.client_id != cid))
            ++ ps.map (ecoEntryOf cid)).filter (fun e => e.client_id != cid)
          ++ ps.map (ecoEntryOf cid) } : St)
      = { s with ecosystem :=
            s.ecosystem.filter (fun e => e.client_id != cid)
              ++ ps.map (ecoEntryOf cid) }
    rw [List.filter_append, eco_filter_kept_idem, eco_filter_other_map,
      List.append_nil]
  · show ((s.ecosystem.filter (fun e => e.client_id != cid))
          ++ ps.map (ecoEntryOf cid)).filter (fun e => e.client_id == cid)
        = ps.map (ecoEntryOf cid)
    rw [List.filter_append, eco_filter_kept_own, eco_filter_own_map,
      List.nil_append]

/-- Claim C7, witness: the theorem applied to a store already holding one
row for the client and a one-person request. -/
theorem C7_ecosystem_idempotent_witness :
    ecoEntries (ecosystemSave
        ⟨[], [], [⟨1, "Mia", "friend", ["seen"]⟩], 1, 1, []⟩ 1
        (some [⟨"Mia", "friend", none⟩])).2 1
      = [⟨"Mia", "friend", none⟩].map (ecoEntryOf 1) :=
  (C7_ecosystem_idempotent ⟨[], [], [⟨1, "Mia", "friend", ["seen"]⟩], 1, 1, []⟩
      1 [⟨"Mia", "friend", none⟩]).2.1

/-- Claim C8: an end-session call always answers ok:true; the table is
mapped by an update that fires only on the row matching both the session id
and the authenticated client id, so rows with another owner or another id
are untouched; and when no row matches both, the whole state is unchanged. -/
theorem C8_session_end_scoped :
    ∀ (s : St) (cid sid : Nat) (dur wc : Option Int) (now : Int),
      (sessionEnd s cid sid dur wc now).1 = true
      ∧ (sessionEnd s cid sid dur wc now).2.sessions
          = s.sessions.map (endUpdate sid cid dur wc now)
      ∧ (∀ x : Session, x.client_id ≠ cid → endUpdate sid cid dur wc now x = x)
      ∧ (∀ x : Session, x.id ≠ sid → endUpdate sid cid dur wc now x = x)
      ∧ ((∀ x ∈ s.sessions, x.id ≠ sid ∨ x.client_id ≠ cid) →
          (sessionEnd s cid sid dur wc now).2 = s) := by
  intro s cid sid dur wc now
  refine ⟨rfl, rfl, ?_, ?_, ?_⟩
  · intro x h
    simp [endUpdate, h]
  · intro x h
    simp [endUpdate, h]
  · intro h
    have hall : ∀ x ∈ s.sessions, endUpdate sid cid dur wc now x = x := by
      intro x hx
      rcases h x hx with h1 | h1 <;> simp [endUpdate, h1]
    show ({ s with
        sessions := s.sessions.map (endUpdate sid cid dur wc now) } : St) = s
    rw [List.map_congr_left hall, List.map_id']

/-- Claim C8, witness: the theorem applied where the only session belongs to
another client — the call succeeds and changes nothing. -/
theorem C8_session_end_scoped_witness :
    (sessionEnd ⟨[], [⟨1, 2, 0, none, 0, 0, 1⟩], [], 1, 2, []⟩
        3 1 none none 5).2
      = ⟨[], [⟨1, 2, 0, none, 0, 0, 1⟩], [], 1, 2, []⟩ :=
  (C8_session_end_scoped ⟨[], [⟨1, 2, 0, none, 0, 0, 1⟩], [], 1, 2, []⟩
      3 1 none none 5).2.2.2.2 (by decide)

/-- Claim C9: with no configured credential the proxy answers 500 with the
configuration-error body and zero outbound calls; with a credential it makes
the one outbound call and relays the upstream status and body unmodified;
and a network failure is caught into a 500 proxy-error response — the
handler is a total function, so no input crashes it. -/
theorem C9_proxy_messages :
    (∀ (body : String) (up : String → Upstream),
        apiMessages none body up = (⟨500, RespBody.configErrorMsg⟩, 0))
    ∧ (∀ (k body : String) (up : String → Upstream) (st : Nat) (d : String),
        up body = Upstream.ok st d →
        apiMessages (some k) body up = (⟨st, RespBody.upstreamData d⟩, 1))
    ∧ (∀ (k body : String) (up : String → Upstream) (m : String),
        up body = Upstream.netError m →
        apiMessages (some k) body up = (⟨500, RespBody.proxyErrorMsg m⟩, 1)) := by
  refine ⟨fun _ _ => rfl, ?_, ?_⟩
  · intro k body up st d h
    simp [apiMessages, h]
  · intro k body up m h
    simp [apiMessages, h]

/-- Claim C9, witness: the three conjuncts against a constant upstream. -/
theorem C9_proxy_messages_witness :
    apiMessages none "b" (fun _ => Upstream.ok 200 "d")
      = (⟨500, RespBody.configErrorMsg⟩, 0)
    ∧ apiMessages (some "k") "b" (fun _ => Upstream.ok 200 "d")
      = (⟨200, RespBody.upstreamData "d"⟩, 1)
    ∧ apiMessages (some "k") "b" (fun _ => Upstream.netError "refused")
      = (⟨500, RespBody.proxyErrorMsg "refused"⟩, 1) :=
  ⟨C9_proxy_messages.1 "b" (fun _ => Upstream.ok 200 "d"),
   C9_proxy_messages.2.1 "k" "b" (fun _ => Upstream.ok 200 "d") 200 "d" rfl,
   C9_proxy_messages.2.2 "k" "b" (fun _ => Upstream.netError "refused")
     "refused" rfl⟩

/-- Claim C10: an ecosystem save whose body carries no people list still
answers ok:true, deletes every row of the authenticated client and inserts
none, and touches nobody else's rows — absent people means replacement by
the empty set, not a no-op. -/
theorem C10_ecosystem_absent_people :
    ∀ (s : St) (cid : Nat),
      (ecosystemSave s cid none).1 = true
      ∧ ecoEntries (ecosystemSave s cid none).2 cid = []
      ∧ (ecosystemSave s cid none).2.ecosystem
          = s.ecosystem.filter (fun e => e.client_id != cid) := by
  intro s cid
  refine ⟨rfl, ?_, by simp [ecosystemSave]⟩
  simp [ecosystemSave, ecoEntries, eco_filter_kept_own]

/-- Claim C10, witness: the theorem applied to a store holding rows of two
clients — the addressed client ends up empty. -/
theorem C10_ecosystem_absent_people_witness :
    ecoEntries (ecosystemSave
        ⟨[], [],
         [⟨1, "Mia", "friend", []⟩, ⟨2, "Leo", "mentor", []⟩], 1, 1, []⟩
        1 none).2 1 = [] :=
  (C10_ecosystem_absent_people
      ⟨[], [],
       [⟨1, "Mia", "friend", []⟩, ⟨2, "Leo", "mentor", []⟩], 1, 1, []⟩ 1).2.1

end Crossing
